import Mathlib

/-
  Verification development for the bulk email sender (envoi_emails.py).

  The Python program is shallowly embedded:
  * contacts are association lists from field name to string value (Python dicts
    produced by csv.DictReader / sqlite row zipping);
  * `string.Template.safe_substitute` is embedded as a character scanner
    following CPython's template pattern
    (escaped `$$`, named `$ident`, braced placeholders, invalid lone `$`);
  * the SMTP transport is an oracle environment deciding the outcome of each
    connect attempt and each `send_message` call; `send_email` threads an
    explicit session state and emits a trace of events;
  * `send_bulk_emails` is a structural recursion over the contact list that
    mirrors the Python loop (test-mode cap, max_emails break, missing-email
    skip, inter-send delay condition `i < total_emails - 1 and delay > 0`);
  * `main` is a function of an environment recording the outcomes of the
    file/database reads, returning the trace of the run.
-/

set_option linter.unusedVariables false

/-! ## Characters of Python template identifiers

CPython's `string.Template` idpattern is `(?a:[_a-z][_a-z0-9]*)` with
IGNORECASE, i.e. ASCII letters and underscore to start, ASCII letters,
digits and underscore to continue. -/

def isIdentStart (c : Char) : Bool := c.isAlpha || c = '_'

def isIdentCont (c : Char) : Bool := isIdentStart c || c.isDigit

/-- Length of the longest identifier prefix of a character list: a leading
ident-start character followed by the longest run of ident-continuation
characters (0 if the list does not start with an identifier). -/
def identLen (s : List Char) : Nat :=
  match s with
  | [] => 0
  | c :: rest => if isIdentStart c then (rest.takeWhile isIdentCont).length + 1 else 0

/-! ## Contacts -/

/-- A contact record: a Python dict from field name to string value,
embedded as an association list (first match wins; dicts have unique keys). -/
abbrev Contact := List (String × String)

/-- Python `contact.get(key)`: the value at `key`, or `none` if absent. -/
def cget (c : Contact) (k : String) : Option String :=
  (c.find? (fun p => p.1 = k)).map (fun p => p.2)

/-- Mapping lookup used by `safe_substitute`: look up an identifier
(character list) among the contact's fields. -/
def lookupId (c : Contact) (id : List Char) : Option String :=
  cget c (String.mk id)

/-! ## Python's `Template.safe_substitute`

The scanner below is the regex
`\$(escaped \$ | named ident | \x7b braced ident \x7d | invalid empty)`
applied left-to-right with `safe_substitute`'s `convert`:
named/braced found in the mapping are replaced by the value, missing ones
are left as the matched text, `$$` becomes `$`, invalid lone `$` is left. -/

def safeSub (m : Contact) (s : List Char) : List Char :=
  match s with
  | [] => []
  | [c] => if c = '$' then ['$'] else [c]
  | c :: d :: rest1 =>
    if c = '$' then
      if d = '$' then '$' :: safeSub m rest1
      else if d = '{' then
        let k := identLen rest1
        if 0 < k ∧ (rest1.drop k).head? = some '}' then
          match lookupId m (rest1.take k) with
          | some v => v.data ++ safeSub m (rest1.drop (k + 1))
          | none => '$' :: '{' :: (rest1.take k ++ '}' :: safeSub m (rest1.drop (k + 1)))
        else '$' :: safeSub m (d :: rest1)
      else if isIdentStart d then
        let k := identLen (d :: rest1)
        match lookupId m ((d :: rest1).take k) with
        | some v => v.data ++ safeSub m ((d :: rest1).drop k)
        | none => '$' :: ((d :: rest1).take k ++ safeSub m ((d :: rest1).drop k))
      else '$' :: safeSub m (d :: rest1)
    else c :: safeSub m (d :: rest1)
termination_by s.length
decreasing_by
  all_goals simp_wf
  all_goals omega

/-- Python `Template(t).safe_substitute(contact)` on a Lean `String`. -/
def safe_substitute (t : String) (c : Contact) : String :=
  String.mk (safeSub c t.data)

/-! ## Events

Trace events of a run.  Transport-level events (`connTry`, `smtpSend`) are
emitted inside `EmailSender.send_email`; loop-level events
(`sendResult`, `noEmail`, `slept`) by `send_bulk_emails`; the remaining
events by contact/template loading and `main`. -/

inductive Event where
  | connTry (ok : Bool)
  | smtpSend (rcpt : String) (ok : Bool)
  | sendResult (i : Nat) (rcpt : String) (ok : Bool)
  | noEmail (i : Nat)
  | slept
  | errCsvLoad (msg : String)
  | errSqliteLoad (msg : String)
  | contactsLoaded (n : Nat)
  | errTemplateRead (msg : String)
  | errTemplateMain
  | errNoContacts
  | disconnected (quitCalled : Bool)
  deriving DecidableEq

/-- Outcome of one `EmailSender.connect` attempt (the `try` block opens the
socket, then EHLO/STARTTLS/login).  `failNone`: the exception is raised by
`smtplib.SMTP(...)` itself, so `smtp_session` is never assigned.  `failSet`:
the socket is created (`smtp_session` assigned) but a later step of the
`try` block raises, so `connect` returns `False` with the session set. -/
inductive CRes where
  | ok
  | failNone
  | failSet
  deriving DecidableEq

/-- Oracle environment for the SMTP transport: the outcome of the n-th
connect attempt and of the n-th `send_message` call of the run. -/
structure TransportEnv where
  connectRes : Nat → CRes
  sendOk : Nat → Bool

/-- The mutable state of an `EmailSender`:  whether `smtp_session` is set
(truthy), plus counters linking the run to the transport oracles. -/
structure SenderState where
  connected : Bool
  connAttempts : Nat
  sendAttempts : Nat
  deriving DecidableEq

namespace EmailSender

/-- Method `EmailSender.connect`: attempt to open the SMTP session.  Returns the
Python return value, the updated state and the emitted events. -/
def connect (tenv : TransportEnv) (st : SenderState) : Bool × SenderState × List Event :=
  match tenv.connectRes st.connAttempts with
  | .ok => (true, ⟨true, st.connAttempts + 1, st.sendAttempts⟩, [.connTry true])
  | .failNone => (false, ⟨st.connected, st.connAttempts + 1, st.sendAttempts⟩, [.connTry false])
  | .failSet => (false, ⟨true, st.connAttempts + 1, st.sendAttempts⟩, [.connTry false])

/-- The `try` block of `send_email`: compose the MIME message and hand it to
`smtp_session.send_message`; on an exception return `False`. -/
def sendCore (tenv : TransportEnv) (st : SenderState) (to_email : String) (pre : List Event) :
    Bool × SenderState × List Event :=
  let ok := tenv.sendOk st.sendAttempts
  (ok, ⟨st.connected, st.connAttempts, st.sendAttempts + 1⟩, pre ++ [.smtpSend to_email ok])

/-- Method `EmailSender.send_email`: lazily connect if `smtp_session` is not set
(returning `False` if the connection fails), then send one message,
returning `True`/`False` and never raising. -/
def send_email (tenv : TransportEnv) (st : SenderState)
    (from_email to_email subject message_html : String) (message_text : Option String) :
    Bool × SenderState × List Event :=
  if st.connected then sendCore tenv st to_email []
  else
    let c := connect tenv st
    if c.1 then sendCore tenv c.2.1 to_email c.2.2
    else (false, c.2.1, c.2.2)

/-- Method `EmailSender.disconnect`: `quit` the session only if `smtp_session` is
set.  The emitted event records whether `quit` was called. -/
def disconnect (st : SenderState) : List Event :=
  if st.connected then [.disconnected true] else [.disconnected false]

end EmailSender

/-! ## Template manager -/

namespace TemplateManager

/-- Method `TemplateManager.load_template`: the argument is the outcome of reading
the template file (`.ok content` or `.error message`).  On failure the
exception is caught, an error is logged and `None` is returned. -/
def load_template (r : Except String String) : Option String × List Event :=
  match r with
  | .ok s => (some s, [])
  | .error e => (none, [.errTemplateRead e])

/-- Method `TemplateManager.personalize_message`: `Template(t).safe_substitute(c)`
inside a `try`.  `safe_substitute` is total on strings (it never raises),
so the `except` branch that would return `None` is unreachable and the
result is always `some`. -/
def personalize_message (template_content : String) (contact_data : Contact) : Option String :=
  some (safe_substitute template_content contact_data)

end TemplateManager

/-! ## Contact manager -/

namespace ContactManager

/-- Method `ContactManager.get_contacts_from_csv`: the argument is the outcome of
opening the CSV file and reading its rows with `csv.DictReader` (`.ok rows`
or `.error message`).  On any exception the handler logs an error and
returns the empty list; on success the rows are returned in file order
with an info log. -/
def get_contacts_from_csv (r : Except String (List Contact)) :
    List Contact × List Event :=
  match r with
  | .ok rows => (rows, [.contactsLoaded rows.length])
  | .error e => ([], [.errCsvLoad e])

/-- Method `ContactManager.get_contacts_from_sqlite`: same shape, for the SQLite
query (rows zipped with column names). -/
def get_contacts_from_sqlite (r : Except String (List Contact)) :
    List Contact × List Event :=
  match r with
  | .ok rows => (rows, [.contactsLoaded rows.length])
  | .error e => ([], [.errSqliteLoad e])

end ContactManager

/-! ## The bulk send loop -/

/-- Result of `send_bulk_emails`, with the trace of events and the final
sender state as ghost data (the Python function returns the two counters). -/
structure BulkResult where
  sent : Nat
  failed : Nat
  events : List Event
  state : SenderState
  deriving DecidableEq

/-- The test-mode clamp at the top of `send_bulk_emails`:
`if test_mode and (max_emails is None or max_emails > 3): max_emails = 3`. -/
def capMax (test_mode : Bool) (max_emails : Option Int) : Option Int :=
  if test_mode then
    match max_emails with
    | none => some 3
    | some v => if 3 < v then some 3 else some v
  else max_emails

/-- Computation `total_emails = len(contacts)`, then
`total_emails = min(total_emails, max_emails)` when `max_emails` is set. -/
def totalEmails (contacts : List Contact) (max_emails : Option Int) : Int :=
  match max_emails with
  | none => (contacts.length : Int)
  | some v => min (contacts.length : Int) v

/-- The `break` condition of the loop:
`max_emails is not None and i >= max_emails`. -/
def breakCond (max_emails : Option Int) (i : Nat) : Bool :=
  match max_emails with
  | none => false
  | some v => decide (v ≤ (i : Int))

/-- The text-message step of the loop body:
`text_message = None; if text_template: text_message = personalize(...)`
(an empty text template string is falsy, so it stays `None`). -/
def textMsg (text_template : Option String) (contact : Contact) : Option String :=
  match text_template with
  | some t => if t = "" then none else TemplateManager.personalize_message t contact
  | none => none

/-- The `for i, contact in enumerate(contacts)` loop of `send_bulk_emails`,
with the clamped `max_emails` and precomputed `total_emails`;  `i` is the
enumeration index, `st` the sender state.  Counters are accumulated over the
remaining contacts. -/
def sendLoop (tenv : TransportEnv) (from_email subject_template html_template : String)
    (text_template : Option String) (delay : Int) (max_emails : Option Int)
    (total_emails : Int) : Nat → SenderState → List Contact → BulkResult
  | _, st, [] => ⟨0, 0, [], st⟩
  | i, st, contact :: rest =>
    if breakCond max_emails i then ⟨0, 0, [], st⟩
    else
      let subject := safe_substitute subject_template contact
      let html_message := (TemplateManager.personalize_message html_template contact).getD ""
      let text_message : Option String := textMsg text_template contact
      let recipient := cget contact "email"
      if recipient = none ∨ recipient = some "" then
        let r := sendLoop tenv from_email subject_template html_template text_template
          delay max_emails total_emails (i + 1) st rest
        ⟨r.sent, r.failed + 1, .noEmail i :: r.events, r.state⟩
      else
        let se := EmailSender.send_email tenv st from_email (recipient.getD "")
          subject html_message text_message
        let r := sendLoop tenv from_email subject_template html_template text_template
          delay max_emails total_emails (i + 1) se.2.1 rest
        let sleepEvs : List Event := if (i : Int) < total_emails - 1 ∧ 0 < delay then [.slept] else []
        ⟨if se.1 then r.sent + 1 else r.sent,
         if se.1 then r.failed else r.failed + 1,
         se.2.2 ++ .sendResult i (recipient.getD "") se.1 :: (sleepEvs ++ r.events),
         r.state⟩

/-- Function `send_bulk_emails` with its trace: clamp `max_emails` in test mode,
compute `total_emails`, then run the loop from index 0. -/
def bulkRun (tenv : TransportEnv) (from_email : String) (contacts : List Contact)
    (subject_template html_template : String) (text_template : Option String)
    (delay : Int) (test_mode : Bool) (max_emails : Option Int)
    (st : SenderState) : BulkResult :=
  let m := capMax test_mode max_emails
  sendLoop tenv from_email subject_template html_template text_template
    delay m (totalEmails contacts m) 0 st contacts

/-- Function `send_bulk_emails` returns `(sent_count, failed_count)`. -/
def send_bulk_emails (tenv : TransportEnv) (from_email : String) (contacts : List Contact)
    (subject_template html_template : String) (text_template : Option String)
    (delay : Int) (test_mode : Bool) (max_emails : Option Int)
    (st : SenderState) : Nat × Nat :=
  let r := bulkRun tenv from_email contacts subject_template html_template
    text_template delay test_mode max_emails st
  (r.sent, r.failed)

/-! ## The orchestrator `main` -/

/-- Flag `--source` choice. -/
inductive SourceKind where
  | csv
  | sqlite
  deriving DecidableEq

/-- The parsed command-line arguments that influence control flow
(`argparse` fields of `main`).  `text_template_given` is whether a
(non-empty) `--text-template` path was passed. -/
structure Args where
  source : SourceKind
  subject : String
  from_email : String
  delay : Int
  max_emails : Option Int
  test : Bool
  text_template_given : Bool

/-- The outcomes of the external I/O of a run: template file reads,
contact reads, and the SMTP transport oracle. -/
structure WorldEnv where
  templateRead : Except String String
  textRead : Except String String
  csvRead : Except String (List Contact)
  sqliteRead : Except String (List Contact)
  transport : TransportEnv

/-- The contact-loading step of `main`: dispatch on `args.source`. -/
def loadContacts (args : Args) (w : WorldEnv) : List Contact × List Event :=
  match args.source with
  | .csv => ContactManager.get_contacts_from_csv w.csvRead
  | .sqlite => ContactManager.get_contacts_from_sqlite w.sqliteRead

/-- Python `main` (Lean reserves the name `main` for executables): load the
HTML template (abort with an error if it is `None` or
falsy), load the optional text template, load the contacts (abort with an
error if the list is empty), then run `send_bulk_emails` inside
`try ... finally: email_sender.disconnect()`.  Returns the run's trace. -/
def mainRun (args : Args) (w : WorldEnv) : List Event :=
  let ht := TemplateManager.load_template w.templateRead
  if ht.1 = none ∨ ht.1 = some "" then ht.2 ++ [.errTemplateMain]
  else
    let tt : Option String × List Event :=
      if args.text_template_given then TemplateManager.load_template w.textRead
      else (none, [])
    let cs := loadContacts args w
    if cs.1 = [] then ht.2 ++ tt.2 ++ cs.2 ++ [.errNoContacts]
    else
      let r := bulkRun w.transport args.from_email cs.1 args.subject (ht.1.getD "")
        tt.1 args.delay args.test args.max_emails ⟨false, 0, 0⟩
      ht.2 ++ tt.2 ++ cs.2 ++ r.events ++ EmailSender.disconnect r.state

/-! ## Trace observations -/

/-- The enumeration index of an outcome event: each contact the loop body
actually processes contributes exactly one outcome event, `sendResult i`
(a send was attempted) or `noEmail i` (counted as failed, no send). -/
def outIdx : Event → Option Nat
  | .sendResult i _ _ => some i
  | .noEmail i => some i
  | _ => none

/-- The enumeration indices of the contacts actually processed, in trace
order. -/
def outcomeIndices (evs : List Event) : List Nat := evs.filterMap outIdx

/-- The number of contacts actually processed in a trace. -/
def countProcessed (evs : List Event) : Nat := (outcomeIndices evs).length

/-- A successful send result. -/
def isSentEv : Event → Bool
  | .sendResult _ _ true => true
  | _ => false

/-- An outcome counted in `failed_count`: a failed send or a missing email. -/
def isFailedEv : Event → Bool
  | .sendResult _ _ false => true
  | .noEmail _ => true
  | _ => false

/-- The inter-send delay event. -/
def isSleptEv : Event → Bool
  | .slept => true
  | _ => false

/-- Any transport interaction: a connect attempt, a message handed to the
SMTP session, or a `send_email` call outcome. -/
def isTransportEv : Event → Bool
  | .connTry _ => true
  | .smtpSend _ _ => true
  | .sendResult _ _ _ => true
  | _ => false

/-- Number of inter-send delays in a trace. -/
def countSlept (evs : List Event) : Nat := evs.countP isSleptEv

/-- The number of contacts the loop processes starting at enumeration
index `i` with `n` contacts remaining, given the (clamped) `max_emails`. -/
def procN (max_emails : Option Int) (i : Nat) (n : Nat) : Nat :=
  match max_emails with
  | none => n
  | some v => min n (v - (i : Int)).toNat

/-! ## Template syntax: tokens

To state what `safe_substitute` does to an arbitrary template, templates
are described as token lists: literal text, `$name` placeholders, braced
placeholders and the escaped `$$`.  `untok` prints a token list back to the
template text; `renderToks` is substitution at the token level (a
placeholder whose identifier has no matching field is kept literally). -/

inductive Tok where
  | lit (s : List Char)
  | named (id : List Char)
  | braced (id : List Char)
  | escaped

/-- The template text of one token. -/
def untokOne : Tok → List Char
  | .lit s => s
  | .named id => '$' :: id
  | .braced id => '$' :: '{' :: (id ++ ['}'])
  | .escaped => ['$', '$']

/-- The template text of a token list. -/
def untok : List Tok → List Char
  | [] => []
  | t :: ts => untokOne t ++ untok ts

/-- Token-level substitution: a matched placeholder becomes the field
value, an unmatched one is left literally unchanged, `$$` becomes `$`. -/
def renderTok (m : Contact) : Tok → List Char
  | .lit s => s
  | .named id =>
    match lookupId m id with
    | some v => v.data
    | none => '$' :: id
  | .braced id =>
    match lookupId m id with
    | some v => v.data
    | none => '$' :: '{' :: (id ++ ['}'])
  | .escaped => ['$']

/-- Token-level substitution over a token list. -/
def renderToks (m : Contact) : List Tok → List Char
  | [] => []
  | t :: ts => renderTok m t ++ renderToks m ts

/-- A valid Python template identifier. -/
def validIdent (id : List Char) : Bool :=
  match id with
  | [] => false
  | c :: cs => isIdentStart c && cs.all isIdentCont

/-- Text that contains no `$`. -/
def noDollar (s : List Char) : Bool := s.all (fun c => decide (c ≠ '$'))

/-- Whether text begins with an identifier-continuation character. -/
def startsIdentCont : List Char → Bool
  | [] => false
  | c :: _ => isIdentCont c

/-- Well-formed token lists: literals contain no `$`, identifiers are valid,
and the text following an unbraced `$name` does not begin with an
identifier character (otherwise the scanner would read a longer name —
such a template denotes a different token list). -/
def WFtoks : List Tok → Bool
  | [] => true
  | .lit s :: ts => noDollar s && WFtoks ts
  | .escaped :: ts => WFtoks ts
  | .braced id :: ts => validIdent id && WFtoks ts
  | .named id :: ts => validIdent id && WFtoks ts && !startsIdentCont (untok ts)

/-! ## Concrete fixtures used in witnesses and counterexamples -/

/-- A transport where every connect and every send succeeds. -/
def tenvAll : TransportEnv := ⟨fun _ => CRes.ok, fun _ => true⟩

/-- A transport where every connect attempt fails (socket creation raises). -/
def tenvFail : TransportEnv := ⟨fun _ => CRes.failNone, fun _ => true⟩

/-- The initial sender state of a run (`smtp_session = None`). -/
def stInit : SenderState := ⟨false, 0, 0⟩

/-- Five contacts with valid email addresses. -/
def cs5 : List Contact :=
  [[("email", "a1@x")], [("email", "a2@x")], [("email", "a3@x")],
   [("email", "a4@x")], [("email", "a5@x")]]

/-- The token form of the witness template `"Hello $name, $unknown_field!"`. -/
def tsC6 : List Tok :=
  [Tok.lit ("Hello ".data), Tok.named ("name".data), Tok.lit (", ".data),
   Tok.named ("unknown_field".data), Tok.lit ("!".data)]

/-- The witness contact: it has a `name` field but no `unknown_field`. -/
def contactC6 : Contact := [("name", "Alice"), ("email", "al@ex.com")]

/-! ## Helper lemmas about `send_email` traces -/

theorem sendEmail_events_mem (tenv : TransportEnv) (st : SenderState)
    (f r s h : String) (t : Option String) :
    ∀ e ∈ (EmailSender.send_email tenv st f r s h t).2.2,
      outIdx e = none ∧ isSleptEv e = false ∧ isSentEv e = false ∧ isFailedEv e = false := by
  intro e he
  unfold EmailSender.send_email EmailSender.sendCore EmailSender.connect at he
  by_cases hcon : st.connected = true <;>
    rcases hc : tenv.connectRes st.connAttempts with _ | _ | _ <;>
    simp [hcon, hc] at he <;>
    (rcases he with rfl | rfl <;> simp [outIdx, isSleptEv, isSentEv, isFailedEv])

theorem sendEmail_filterMap_outIdx (tenv : TransportEnv) (st : SenderState)
    (f r s h : String) (t : Option String) :
    ((EmailSender.send_email tenv st f r s h t).2.2).filterMap outIdx = [] :=
  List.filterMap_eq_nil_iff.mpr fun e he => (sendEmail_events_mem tenv st f r s h t e he).1

theorem sendEmail_countP_slept (tenv : TransportEnv) (st : SenderState)
    (f r s h : String) (t : Option String) :
    ((EmailSender.send_email tenv st f r s h t).2.2).countP isSleptEv = 0 :=
  List.countP_eq_zero.mpr fun e he => by
    simp [(sendEmail_events_mem tenv st f r s h t e he).2.1]

theorem sendEmail_countP_sent (tenv : TransportEnv) (st : SenderState)
    (f r s h : String) (t : Option String) :
    ((EmailSender.send_email tenv st f r s h t).2.2).countP isSentEv = 0 :=
  List.countP_eq_zero.mpr fun e he => by
    simp [(sendEmail_events_mem tenv st f r s h t e he).2.2.1]

theorem sendEmail_countP_failed (tenv : TransportEnv) (st : SenderState)
    (f r s h : String) (t : Option String) :
    ((EmailSender.send_email tenv st f r s h t).2.2).countP isFailedEv = 0 :=
  List.countP_eq_zero.mpr fun e he => by
    simp [(sendEmail_events_mem tenv st f r s h t e he).2.2.2]

/-! ## Helper lemmas about `procN` -/

theorem procN_zero (mm : Option Int) (i : Nat) : procN mm i 0 = 0 := by
  cases mm <;> simp [procN]

theorem procN_break (mm : Option Int) (i n : Nat) (h : breakCond mm i = true) :
    procN mm i n = 0 := by
  cases mm with
  | none => simp [breakCond] at h
  | some v => simp [breakCond] at h; simp [procN]; omega

theorem procN_succ (mm : Option Int) (i n : Nat) (h : breakCond mm i = false) :
    procN mm i (n + 1) = procN mm (i + 1) n + 1 := by
  cases mm with
  | none => simp [procN]
  | some v => simp [breakCond] at h; simp [procN]; omega

/-! ## Helper lemmas about the loop trace -/

theorem sendLoop_outcomeIndices (tenv : TransportEnv) (f sT hT : String)
    (tT : Option String) (d : Int) (mm : Option Int) (total : Int) :
    ∀ (cs : List Contact) (i : Nat) (st : SenderState),
      outcomeIndices (sendLoop tenv f sT hT tT d mm total i st cs).events
        = List.range' i (procN mm i cs.length) := by
  intro cs
  induction cs with
  | nil => intro i st; simp [sendLoop, outcomeIndices, procN_zero]
  | cons c rest ih =>
    intro i st
    by_cases hb : breakCond mm i = true
    · simp [sendLoop, hb, outcomeIndices, procN_break mm i _ hb]
    · rw [List.length_cons, procN_succ mm i _ (by simpa using hb), List.range'_succ]
      by_cases hr : cget c "email" = none ∨ cget c "email" = some ""
      · simp [sendLoop, hb, hr, outcomeIndices, outIdx, List.filterMap_cons]
        simpa [outcomeIndices] using ih (i + 1) st
      · by_cases hs : ((i : Int) < total - 1 ∧ 0 < d) <;>
          · simp [sendLoop, hb, hr, hs, outcomeIndices, outIdx, List.filterMap_append,
              List.filterMap_cons, sendEmail_filterMap_outIdx]
            simpa [outcomeIndices] using ih (i + 1) _

theorem sendLoop_counts (tenv : TransportEnv) (f sT hT : String)
    (tT : Option String) (d : Int) (mm : Option Int) (total : Int) :
    ∀ (cs : List Contact) (i : Nat) (st : SenderState),
      (sendLoop tenv f sT hT tT d mm total i st cs).sent
          = ((sendLoop tenv f sT hT tT d mm total i st cs).events).countP isSentEv ∧
      (sendLoop tenv f sT hT tT d mm total i st cs).failed
          = ((sendLoop tenv f sT hT tT d mm total i st cs).events).countP isFailedEv := by
  intro cs
  induction cs with
  | nil => intro i st; simp [sendLoop]
  | cons c rest ih =>
    intro i st
    by_cases hb : breakCond mm i = true
    · simp [sendLoop, hb]
    · by_cases hr : cget c "email" = none ∨ cget c "email" = some ""
      · simp [sendLoop, hb, hr, List.countP_cons, isSentEv, isFailedEv,
          (ih (i + 1) st).1, (ih (i + 1) st).2]
      · by_cases hok : (EmailSender.send_email tenv st f ((cget c "email").getD "")
            (safe_substitute sT c) ((TemplateManager.personalize_message hT c).getD "")
            (textMsg tT c)).1 = true <;>
          by_cases hs : ((i : Int) < total - 1 ∧ 0 < d) <;>
            simp [sendLoop, hb, hr, hok, hs, List.countP_append, List.countP_cons,
              sendEmail_countP_sent, sendEmail_countP_failed, isSentEv, isFailedEv, isSleptEv,
              (ih (i + 1) _).1, (ih (i + 1) _).2]

/-- Every outcome event is exactly one of: a successful send result, or a
failed outcome (failed send / missing email). -/
theorem countProcessed_eq_sent_add_failed (evs : List Event) :
    countProcessed evs = evs.countP isSentEv + evs.countP isFailedEv := by
  induction evs with
  | nil => simp [countProcessed, outcomeIndices]
  | cons e t ih =>
    simp only [countProcessed, outcomeIndices, List.filterMap_cons, List.countP_cons] at ih ⊢
    cases e <;>
      first
        | (rename_i ok; cases ok <;>
            simp [outIdx, isSentEv, isFailedEv, ih] <;> omega)
        | (simp [outIdx, isSentEv, isFailedEv, ih]; try omega)

theorem sendLoop_sent_add_failed (tenv : TransportEnv) (f sT hT : String)
    (tT : Option String) (d : Int) (mm : Option Int) (total : Int)
    (cs : List Contact) (i : Nat) (st : SenderState) :
    (sendLoop tenv f sT hT tT d mm total i st cs).sent
        + (sendLoop tenv f sT hT tT d mm total i st cs).failed
      = countProcessed (sendLoop tenv f sT hT tT d mm total i st cs).events := by
  rw [countProcessed_eq_sent_add_failed,
    (sendLoop_counts tenv f sT hT tT d mm total cs i st).1,
    (sendLoop_counts tenv f sT hT tT d mm total cs i st).2]

/-- The loop trace is empty only when the remaining contact list is empty or
the `break` fires immediately. -/
theorem sendLoop_events_nil (tenv : TransportEnv) (f sT hT : String)
    (tT : Option String) (d : Int) (mm : Option Int) (total : Int)
    (cs : List Contact) (i : Nat) (st : SenderState)
    (h : (sendLoop tenv f sT hT tT d mm total i st cs).events = []) :
    cs = [] ∨ breakCond mm i = true := by
  cases cs with
  | nil => exact Or.inl rfl
  | cons c rest =>
    by_cases hb : breakCond mm i = true
    · exact Or.inr hb
    · exfalso
      by_cases hr : cget c "email" = none ∨ cget c "email" = some "" <;>
        simp [sendLoop, hb, hr] at h

/-- Lemma: `getLast?` of an append with nonempty right part. -/
theorem getLast?_append_right {α : Type} (l l' : List α) (h : l' ≠ []) :
    (l ++ l').getLast? = l'.getLast? := by
  rw [List.getLast?_append]
  rcases hx : l'.getLast? with _ | x
  · rw [List.getLast?_eq_none_iff] at hx; exact absurd hx h
  · rfl

/-- No run of the loop ends with a `slept` event, provided `total_emails`
is at most the number of contacts available from index `i` on and at most
the `max_emails` bound:  the delay guard `i < total_emails - 1` fails at the
last processed contact. -/
theorem sendLoop_getLast_ne_slept (tenv : TransportEnv) (f sT hT : String)
    (tT : Option String) (d : Int) (mm : Option Int) (total : Int) :
    ∀ (cs : List Contact) (i : Nat) (st : SenderState),
      total ≤ (i : Int) + cs.length →
      (∀ v, mm = some v → total ≤ v) →
      (sendLoop tenv f sT hT tT d mm total i st cs).events.getLast? ≠ some Event.slept := by
  intro cs
  induction cs with
  | nil => intro i st h1 h2; simp [sendLoop]
  | cons c rest ih =>
    intro i st h1 h2
    by_cases hb : breakCond mm i = true
    · simp [sendLoop, hb]
    · by_cases hr : cget c "email" = none ∨ cget c "email" = some ""
      · simp only [sendLoop, hb, hr, if_true, if_false, ite_true, ite_false]
        cases htl : (sendLoop tenv f sT hT tT d mm total (i + 1) st rest).events with
        | nil => simp [htl]
        | cons e t =>
          have := ih (i + 1) st (by simp only [List.length_cons] at h1; push_cast at h1 ⊢; omega) h2
          rw [htl] at this
          simpa [htl] using this
      · simp only [sendLoop, hb, hr, if_true, if_false, ite_true, ite_false]
        cases htl : (sendLoop tenv f sT hT tT d mm total (i + 1)
            (EmailSender.send_email tenv st f ((cget c "email").getD "")
              (safe_substitute sT c) ((TemplateManager.personalize_message hT c).getD "")
              (textMsg tT c)).2.1 rest).events with
        | cons e t =>
          have hlast := ih (i + 1)
            (EmailSender.send_email tenv st f ((cget c "email").getD "")
              (safe_substitute sT c) ((TemplateManager.personalize_message hT c).getD "")
              (textMsg tT c)).2.1
            (by simp only [List.length_cons] at h1; push_cast at h1 ⊢; omega) h2
          rw [htl] at hlast
          simp only [Bool.false_eq_true, if_false, ite_false, htl]
          rw [getLast?_append_right _ _ (by simp), ← List.singleton_append,
            getLast?_append_right _ _ (by simp),
            getLast?_append_right _ _ (List.cons_ne_nil e t)]
          exact hlast
        | nil =>
          have hcase := sendLoop_events_nil tenv f sT hT tT d mm total rest (i + 1) _ htl
          have hnos : ¬((i : Int) < total - 1 ∧ 0 < d) := by
            rcases hcase with hrest | hbk
            · subst hrest
              simp at h1
              omega
            · rcases mm with _ | v
              · simp [breakCond] at hbk
              · have := h2 v rfl
                simp [breakCond] at hbk
                omega
          simp only [Bool.false_eq_true, if_false, ite_false, htl, hnos]
          rw [getLast?_append_right _ _ (by simp)]
          simp

/-! ## Claims -/

/-- C1: with `maxEmails` unset and `testMode` false, `send_bulk_emails`
processes exactly the `N` contacts in their original order — the outcome
indices of the trace are `0, 1, ..., N-1` — and every contact either has a
send attempted (`sendResult`) or is counted as failed with no send
(`noEmail`), so `sent + failed = N`; moreover `total_emails = N`. -/
theorem claim1_all_contacts_in_order (tenv : TransportEnv) (f sT hT : String)
    (tT : Option String) (d : Int) (st : SenderState) (cs : List Contact) :
    outcomeIndices (bulkRun tenv f cs sT hT tT d false none st).events
        = List.range cs.length ∧
    (bulkRun tenv f cs sT hT tT d false none st).sent
        + (bulkRun tenv f cs sT hT tT d false none st).failed = cs.length ∧
    totalEmails cs (capMax false none) = (cs.length : Int) := by
  refine ⟨?_, ?_, rfl⟩
  · show outcomeIndices (sendLoop tenv f sT hT tT d (capMax false none)
        (totalEmails cs (capMax false none)) 0 st cs).events = List.range cs.length
    rw [sendLoop_outcomeIndices, List.range_eq_range']
    rfl
  · show (sendLoop tenv f sT hT tT d (capMax false none)
        (totalEmails cs (capMax false none)) 0 st cs).sent
      + (sendLoop tenv f sT hT tT d (capMax false none)
        (totalEmails cs (capMax false none)) 0 st cs).failed = cs.length
    rw [sendLoop_sent_add_failed, countProcessed, sendLoop_outcomeIndices]
    simp [procN, capMax]

/-- C2 as stated is false: with `testMode` true and `maxEmails = -1`
(argparse accepts any int), the loop processes 0 contacts, but the claimed
bound `min(3, maxEmails)` is `-1`, and `0 ≤ -1` fails. -/
theorem claim2_counterexample :
    ¬((countProcessed (bulkRun tenvAll "f" [[("email", "a@b")]] "S" "H" none 0 true
        (some (-1)) stInit).events : Int) ≤ min 3 (-1)) := by decide

/-- C2 (amended: a provided negative `maxEmails` is clamped to 0 in the
bound): in test mode at most `min(3, max(maxEmails,0) if provided else 3)`
contacts are processed, regardless of the size of the contact list; and
with 10 contacts, test mode and `maxEmails` unset, exactly 3 contacts are
processed. -/
theorem claim2_testmode_cap (tenv : TransportEnv) (f sT hT : String)
    (tT : Option String) (d : Int) (st : SenderState) (cs : List Contact)
    (m : Option Int) :
    countProcessed (bulkRun tenv f cs sT hT tT d true m st).events
        ≤ min 3 (match m with | some v => v.toNat | none => 3) ∧
    (cs.length = 10 →
      countProcessed (bulkRun tenv f cs sT hT tT d true none st).events = 3) := by
  constructor
  · show countProcessed (sendLoop tenv f sT hT tT d (capMax true m)
        (totalEmails cs (capMax true m)) 0 st cs).events ≤ _
    rw [countProcessed, sendLoop_outcomeIndices, List.length_range']
    rcases m with _ | v
    · simp [capMax, procN]
    · by_cases h3 : 3 < v <;> simp [capMax, h3, procN] <;> omega
  · intro h10
    show countProcessed (sendLoop tenv f sT hT tT d (capMax true none)
        (totalEmails cs (capMax true none)) 0 st cs).events = 3
    rw [countProcessed, sendLoop_outcomeIndices, List.length_range', h10]
    simp [capMax, procN]

/-- C3 as stated is false for the same reason as C2: with `testMode` false
and `maxEmails = -1` on one contact, 0 contacts are processed but the
claimed bound `min(N, maxEmails) = -1` makes the inequality fail. -/
theorem claim3_counterexample :
    ¬((countProcessed (bulkRun tenvAll "f" [[("email", "a@b")]] "S" "H" none 0 false
        (some (-1)) stInit).events : Int)
      ≤ min (([[("email", "a@b")]] : List Contact).length : Int) (-1)) := by decide

/-- C3 (amended: a provided negative `maxEmails` is clamped to 0 in the
bound): for every run, `sent + failed` equals the number of contacts
actually iterated, and that number is at most
`min(N, max(maxEmails,0) if provided, 3 if test mode)`. -/
theorem claim3_tally_invariant (tenv : TransportEnv) (f sT hT : String)
    (tT : Option String) (d : Int) (test : Bool) (m : Option Int)
    (st : SenderState) (cs : List Contact) :
    (bulkRun tenv f cs sT hT tT d test m st).sent
        + (bulkRun tenv f cs sT hT tT d test m st).failed
      = countProcessed (bulkRun tenv f cs sT hT tT d test m st).events ∧
    countProcessed (bulkRun tenv f cs sT hT tT d test m st).events
      ≤ min cs.length (min (match m with | some v => v.toNat | none => cs.length)
          (if test then 3 else cs.length)) := by
  constructor
  · exact sendLoop_sent_add_failed tenv f sT hT tT d (capMax test m)
      (totalEmails cs (capMax test m)) cs 0 st
  · show countProcessed (sendLoop tenv f sT hT tT d (capMax test m)
        (totalEmails cs (capMax test m)) 0 st cs).events ≤ _
    rw [countProcessed, sendLoop_outcomeIndices, List.length_range']
    rcases test with _ | _ <;> rcases m with _ | v
    · simp [capMax, procN]
    · simp [capMax, procN]; try omega
    · simp [capMax, procN]
    · by_cases h3 : 3 < v <;> simp [capMax, h3, procN] <;> try omega

/-- C4: a contact whose `email` field is absent or empty is counted as
failed, contributes exactly the `noEmail` event (no transport interaction,
the sender state is untouched), and the loop continues with the next
contact; in particular the single contact `{"email": "", "name": "A"}`
yields `(sent, failed) = (0, 1)` with trace `[noEmail 0]` and no transport
call. -/
theorem claim4_missing_email :
    (∀ (tenv : TransportEnv) (f sT hT : String) (tT : Option String) (d : Int)
        (mm : Option Int) (total : Int) (i : Nat) (st : SenderState)
        (c : Contact) (rest : List Contact),
      (cget c "email" = none ∨ cget c "email" = some "") →
      breakCond mm i = false →
      sendLoop tenv f sT hT tT d mm total i st (c :: rest)
        = ⟨(sendLoop tenv f sT hT tT d mm total (i + 1) st rest).sent,
           (sendLoop tenv f sT hT tT d mm total (i + 1) st rest).failed + 1,
           .noEmail i :: (sendLoop tenv f sT hT tT d mm total (i + 1) st rest).events,
           (sendLoop tenv f sT hT tT d mm total (i + 1) st rest).state⟩) ∧
    bulkRun tenvAll "from@x" [[("email", ""), ("name", "A")]] "S" "B" none 5 false none stInit
      = ⟨0, 1, [.noEmail 0], stInit⟩ := by
  constructor
  · intro tenv f sT hT tT d mm total i st c rest hr hb
    simp [sendLoop, hb, hr]
  · decide

/-- C4 witness: the step property applied to the concrete contact
`{"email": "", "name": "A"}` at index 0 with no cap. -/
theorem claim4_witness :
    (cget [("email", ""), ("name", "A")] "email" = none ∨
      cget [("email", ""), ("name", "A")] "email" = some "") ∧
    breakCond none 0 = false ∧
    sendLoop tenvAll "from@x" "S" "B" none 5 none 1 0 stInit [[("email", ""), ("name", "A")]]
      = ⟨(sendLoop tenvAll "from@x" "S" "B" none 5 none 1 1 stInit []).sent,
         (sendLoop tenvAll "from@x" "S" "B" none 5 none 1 1 stInit []).failed + 1,
         .noEmail 0 :: (sendLoop tenvAll "from@x" "S" "B" none 5 none 1 1 stInit []).events,
         (sendLoop tenvAll "from@x" "S" "B" none 5 none 1 1 stInit []).state⟩ :=
  ⟨by decide, rfl,
    claim4_missing_email.1 tenvAll "from@x" "S" "B" none 5 none 1 0 stInit
      [("email", ""), ("name", "A")] [] (by decide) rfl⟩

/-- C5: with `delaySeconds > 0` the trace never ends with a delay — no
delay is issued after the last processed contact; and in the scenario of 5
contacts with `maxEmails = 2`, non-test mode and delay 5, exactly 2
contacts are processed and the delay fires exactly once, between the two
sends. -/
theorem claim5_no_trailing_delay :
    (∀ (tenv : TransportEnv) (f sT hT : String) (tT : Option String) (d : Int)
        (test : Bool) (m : Option Int) (st : SenderState) (cs : List Contact),
      0 < d →
      (bulkRun tenv f cs sT hT tT d test m st).events.getLast? ≠ some Event.slept) ∧
    bulkRun tenvAll "from@x" cs5 "S" "B" none 5 false (some 2) stInit
      = ⟨2, 0, [.connTry true, .smtpSend "a1@x" true, .sendResult 0 "a1@x" true, .slept,
                .smtpSend "a2@x" true, .sendResult 1 "a2@x" true], ⟨true, 1, 2⟩⟩ ∧
    countSlept (bulkRun tenvAll "from@x" cs5 "S" "B" none 5 false (some 2) stInit).events = 1 ∧
    countProcessed (bulkRun tenvAll "from@x" cs5 "S" "B" none 5 false (some 2) stInit).events
      = 2 := by
  refine ⟨?_, by decide, by decide, by decide⟩
  intro tenv f sT hT tT d test m st cs hd
  show (sendLoop tenv f sT hT tT d (capMax test m)
      (totalEmails cs (capMax test m)) 0 st cs).events.getLast? ≠ some Event.slept
  apply sendLoop_getLast_ne_slept
  · rcases h : capMax test m with _ | v <;> simp [totalEmails]
  · intro v hv
    rw [hv]
    simp [totalEmails]

/-- C5 witness: the general no-trailing-delay property at the concrete
scenario (delay 5 > 0). -/
theorem claim5_witness :
    (0 : Int) < 5 ∧
    (bulkRun tenvAll "from@x" cs5 "S" "B" none 5 false (some 2) stInit).events.getLast?
      ≠ some Event.slept :=
  ⟨by decide,
    claim5_no_trailing_delay.1 tenvAll "from@x" "S" "B" none 5 false (some 2) stInit cs5
      (by decide)⟩

/-- C7: a transport-level failure is isolated to its own contact.
(1) If the session is not open and the connect attempt fails, `send_email`
returns `False` with only the failed connect in its trace (no message
reaches the transport) instead of raising.
(2) The set and order of contacts processed by the loop do not depend on
the transport outcomes or the session state: no per-recipient failure
aborts the run.
(3) Each failure is counted exactly once: `failed` equals the number of
failed outcomes in the trace, and `sent + failed` the number of processed
contacts. -/
theorem claim7_failure_isolation :
    (∀ (tenv : TransportEnv) (st : SenderState) (f r s h : String) (t : Option String),
      st.connected = false →
      tenv.connectRes st.connAttempts ≠ CRes.ok →
      (EmailSender.send_email tenv st f r s h t).1 = false ∧
      (EmailSender.send_email tenv st f r s h t).2.2 = [Event.connTry false]) ∧
    (∀ (tenv tenv' : TransportEnv) (st st' : SenderState) (f sT hT : String)
        (tT : Option String) (d : Int) (test : Bool) (m : Option Int) (cs : List Contact),
      outcomeIndices (bulkRun tenv f cs sT hT tT d test m st).events
        = outcomeIndices (bulkRun tenv' f cs sT hT tT d test m st').events) ∧
    (∀ (tenv : TransportEnv) (f sT hT : String) (tT : Option String) (d : Int)
        (test : Bool) (m : Option Int) (st : SenderState) (cs : List Contact),
      (bulkRun tenv f cs sT hT tT d test m st).failed
        = ((bulkRun tenv f cs sT hT tT d test m st).events).countP isFailedEv ∧
      (bulkRun tenv f cs sT hT tT d test m st).sent
          + (bulkRun tenv f cs sT hT tT d test m st).failed
        = countProcessed (bulkRun tenv f cs sT hT tT d test m st).events) := by
  refine ⟨?_, ?_, ?_⟩
  · intro tenv st f r s h t hcon hc
    unfold EmailSender.send_email EmailSender.connect
    rcases hres : tenv.connectRes st.connAttempts with _ | _ | _ <;>
      simp [hcon, hres]
    simp [hres] at hc
  · intro tenv tenv' st st' f sT hT tT d test m cs
    show outcomeIndices (sendLoop tenv f sT hT tT d (capMax test m)
        (totalEmails cs (capMax test m)) 0 st cs).events
      = outcomeIndices (sendLoop tenv' f sT hT tT d (capMax test m)
        (totalEmails cs (capMax test m)) 0 st' cs).events
    rw [sendLoop_outcomeIndices, sendLoop_outcomeIndices]
  · intro tenv f sT hT tT d test m st cs
    exact ⟨(sendLoop_counts tenv f sT hT tT d (capMax test m)
        (totalEmails cs (capMax test m)) cs 0 st).2,
      sendLoop_sent_add_failed tenv f sT hT tT d (capMax test m)
        (totalEmails cs (capMax test m)) cs 0 st⟩

/-- C7 witness: connect failure on the very first send attempt with the
always-failing transport: the send returns `False`, only the failed
connect is traced, and the loop over two contacts still processes both. -/
theorem claim7_witness :
    stInit.connected = false ∧
    tenvFail.connectRes stInit.connAttempts ≠ CRes.ok ∧
    ((EmailSender.send_email tenvFail stInit "f" "a@x" "S" "B" none).1 = false ∧
      (EmailSender.send_email tenvFail stInit "f" "a@x" "S" "B" none).2.2
        = [Event.connTry false]) :=
  ⟨rfl, by decide,
    claim7_failure_isolation.1 tenvFail stInit "f" "a@x" "S" "B" none rfl (by decide)⟩

/-- Template loading emits no transport events and no outcome events. -/
theorem load_template_aux (r : Except String String) :
    ((TemplateManager.load_template r).2).countP isTransportEv = 0 ∧
    ((TemplateManager.load_template r).2).filterMap outIdx = [] := by
  rcases r with e | s <;> simp [TemplateManager.load_template, isTransportEv, outIdx]

/-- Contact loading emits no transport events and no outcome events. -/
theorem loadContacts_aux (args : Args) (w : WorldEnv) :
    ((loadContacts args w).2).countP isTransportEv = 0 ∧
    ((loadContacts args w).2).filterMap outIdx = [] := by
  unfold loadContacts
  cases args.source
  · rcases w.csvRead with e | rows <;>
      simp [ContactManager.get_contacts_from_csv, isTransportEv, outIdx]
  · rcases w.sqliteRead with e | rows <;>
      simp [ContactManager.get_contacts_from_sqlite, isTransportEv, outIdx]

/-- The optional text-template step of `main` emits no transport events and
no outcome events. -/
theorem text_step_aux (args : Args) (w : WorldEnv) :
    ((if args.text_template_given then TemplateManager.load_template w.textRead
      else (none, [])).2).countP isTransportEv = 0 ∧
    ((if args.text_template_given then TemplateManager.load_template w.textRead
      else (none, [])).2).filterMap outIdx = [] := by
  cases h : args.text_template_given
  · simp
  · simpa using load_template_aux w.textRead

/-- C8: `get_contacts_from_csv` (and the SQLite reader) returns the empty
contact list with an error log on any I/O or parse failure instead of
raising; and whenever the loaded contact list is empty, `main` aborts with
the no-contacts error log as its final action, with no transport
interaction and no contact processed. -/
theorem claim8_empty_contacts_abort :
    (∀ e, ContactManager.get_contacts_from_csv (.error e) = ([], [.errCsvLoad e])) ∧
    (∀ e, ContactManager.get_contacts_from_sqlite (.error e) = ([], [.errSqliteLoad e])) ∧
    (∀ (args : Args) (w : WorldEnv),
      (TemplateManager.load_template w.templateRead).1 ≠ none →
      (TemplateManager.load_template w.templateRead).1 ≠ some "" →
      (loadContacts args w).1 = [] →
      (mainRun args w).getLast? = some Event.errNoContacts ∧
      (mainRun args w).countP isTransportEv = 0 ∧
      countProcessed (mainRun args w) = 0) := by
  refine ⟨fun e => rfl, fun e => rfl, ?_⟩
  intro args w h1 h2 h3
  have hcond : ¬((TemplateManager.load_template w.templateRead).1 = none ∨
      (TemplateManager.load_template w.templateRead).1 = some "") := by
    rintro (h | h) <;> [exact h1 h; exact h2 h]
  unfold mainRun
  simp only [hcond, if_false, ite_false, h3, if_true, ite_true]
  refine ⟨?_, ?_, ?_⟩
  · rw [getLast?_append_right _ _ (by simp)]
    rfl
  · simp [List.countP_append, (load_template_aux w.templateRead).1,
      (text_step_aux args w).1, (loadContacts_aux args w).1, isTransportEv]
  · simp [countProcessed, outcomeIndices, List.filterMap_append,
      (load_template_aux w.templateRead).2, (text_step_aux args w).2,
      (loadContacts_aux args w).2, outIdx]

/-- C8 witness: a CSV read failure yields no contacts, and the run aborts
with the no-contacts error, no transport call and no contact processed. -/
theorem claim8_witness :
    ((TemplateManager.load_template (⟨Except.ok "B", Except.ok "", Except.error "boom",
        Except.ok [], tenvFail⟩ : WorldEnv).templateRead).1 ≠ none ∧
      (TemplateManager.load_template (⟨Except.ok "B", Except.ok "", Except.error "boom",
        Except.ok [], tenvFail⟩ : WorldEnv).templateRead).1 ≠ some "" ∧
      (loadContacts ⟨SourceKind.csv, "S", "f", 5, none, false, false⟩
        ⟨Except.ok "B", Except.ok "", Except.error "boom", Except.ok [], tenvFail⟩).1 = []) ∧
    ((mainRun ⟨SourceKind.csv, "S", "f", 5, none, false, false⟩
        ⟨Except.ok "B", Except.ok "", Except.error "boom", Except.ok [], tenvFail⟩).getLast?
          = some Event.errNoContacts ∧
      (mainRun ⟨SourceKind.csv, "S", "f", 5, none, false, false⟩
        ⟨Except.ok "B", Except.ok "", Except.error "boom", Except.ok [], tenvFail⟩).countP
          isTransportEv = 0 ∧
      countProcessed (mainRun ⟨SourceKind.csv, "S", "f", 5, none, false, false⟩
        ⟨Except.ok "B", Except.ok "", Except.error "boom", Except.ok [], tenvFail⟩) = 0) :=
  ⟨⟨by decide, by decide, rfl⟩,
    claim8_empty_contacts_abort.2.2 ⟨SourceKind.csv, "S", "f", 5, none, false, false⟩
      ⟨Except.ok "B", Except.ok "", Except.error "boom", Except.ok [], tenvFail⟩
      (by decide) (by decide) rfl⟩

/-- Step `disconnect` always emits exactly its disconnect-step event. -/
theorem disconnect_getLast (st : SenderState) :
    (EmailSender.disconnect st).getLast? = some (Event.disconnected st.connected) := by
  cases h : st.connected <;> simp [EmailSender.disconnect, h]

/-- The disconnect step always emits an event. -/
theorem disconnect_ne_nil (st : SenderState) : EmailSender.disconnect st ≠ [] := by
  cases h : st.connected <;> simp [EmailSender.disconnect, h]

/-- C9: whenever the run reaches the send loop (template loaded and
non-falsy, contacts nonempty), the very last event of the run is the
disconnect step — it executes after the whole bulk send, whatever the
transport outcomes (the `finally` block), and `quit` is called exactly when
the session ended up open. -/
theorem claim9_disconnect_at_end (args : Args) (w : WorldEnv)
    (h1 : (TemplateManager.load_template w.templateRead).1 ≠ none)
    (h2 : (TemplateManager.load_template w.templateRead).1 ≠ some "")
    (h3 : (loadContacts args w).1 ≠ []) :
    (mainRun args w).getLast?
      = some (Event.disconnected
          (bulkRun w.transport args.from_email (loadContacts args w).1 args.subject
            (((TemplateManager.load_template w.templateRead).1).getD "")
            ((if args.text_template_given then TemplateManager.load_template w.textRead
              else (none, [])).1)
            args.delay args.test args.max_emails ⟨false, 0, 0⟩).state.connected) := by
  have hcond : ¬((TemplateManager.load_template w.templateRead).1 = none ∨
      (TemplateManager.load_template w.templateRead).1 = some "") := by
    rintro (h | h) <;> [exact h1 h; exact h2 h]
  unfold mainRun
  simp only [hcond, if_false, ite_false, h3, if_true, ite_true]
  rw [getLast?_append_right _ _ (disconnect_ne_nil _), disconnect_getLast]

/-- C9 witness: a normal run (template `"B"`, one contact) ends with the
disconnect step; here the session was opened, so `quit` is called. -/
theorem claim9_witness :
    ((TemplateManager.load_template (⟨Except.ok "B", Except.ok "",
        Except.ok [[("email", "a@x")]], Except.ok [], tenvAll⟩ : WorldEnv).templateRead).1
          ≠ none ∧
      (TemplateManager.load_template (⟨Except.ok "B", Except.ok "",
        Except.ok [[("email", "a@x")]], Except.ok [], tenvAll⟩ : WorldEnv).templateRead).1
          ≠ some "" ∧
      (loadContacts ⟨SourceKind.csv, "S", "f", 5, none, false, false⟩
        ⟨Except.ok "B", Except.ok "", Except.ok [[("email", "a@x")]], Except.ok [],
          tenvAll⟩).1 ≠ []) ∧
    (mainRun ⟨SourceKind.csv, "S", "f", 5, none, false, false⟩
        ⟨Except.ok "B", Except.ok "", Except.ok [[("email", "a@x")]], Except.ok [],
          tenvAll⟩).getLast?
      = some (Event.disconnected
          (bulkRun (⟨Except.ok "B", Except.ok "", Except.ok [[("email", "a@x")]], Except.ok [],
              tenvAll⟩ : WorldEnv).transport
            (⟨SourceKind.csv, "S", "f", 5, none, false, false⟩ : Args).from_email
            (loadContacts ⟨SourceKind.csv, "S", "f", 5, none, false, false⟩
              ⟨Except.ok "B", Except.ok "", Except.ok [[("email", "a@x")]], Except.ok [],
                tenvAll⟩).1
            (⟨SourceKind.csv, "S", "f", 5, none, false, false⟩ : Args).subject
            (((TemplateManager.load_template (⟨Except.ok "B", Except.ok "",
              Except.ok [[("email", "a@x")]], Except.ok [], tenvAll⟩ :
                WorldEnv).templateRead).1).getD "")
            ((if (⟨SourceKind.csv, "S", "f", 5, none, false, false⟩ :
                Args).text_template_given then
              TemplateManager.load_template (⟨Except.ok "B", Except.ok "",
                Except.ok [[("email", "a@x")]], Except.ok [], tenvAll⟩ : WorldEnv).textRead
              else (none, [])).1)
            (⟨SourceKind.csv, "S", "f", 5, none, false, false⟩ : Args).delay
            (⟨SourceKind.csv, "S", "f", 5, none, false, false⟩ : Args).test
            (⟨SourceKind.csv, "S", "f", 5, none, false, false⟩ : Args).max_emails
            ⟨false, 0, 0⟩).state.connected) :=
  ⟨⟨by decide, by decide, by decide⟩,
    claim9_disconnect_at_end ⟨SourceKind.csv, "S", "f", 5, none, false, false⟩
      ⟨Except.ok "B", Except.ok "", Except.ok [[("email", "a@x")]], Except.ok [], tenvAll⟩
      (by decide) (by decide) (by decide)⟩

/-- C10: if the HTML template file is read successfully but its content is
the empty string, `main` aborts immediately with the template error: the
whole trace is that single error event — no contact load, no transport
interaction, no send.  The abort condition is the falsiness of the content,
not only a read failure. -/
theorem claim10_empty_template_aborts (args : Args) (w : WorldEnv)
    (h : w.templateRead = Except.ok "") :
    mainRun args w = [Event.errTemplateMain] := by
  unfold mainRun
  simp [h, TemplateManager.load_template]

/-- C10 witness: the empty-content template aborts a run whose contacts
would otherwise be available. -/
theorem claim10_witness :
    (⟨Except.ok "", Except.ok "", Except.ok [[("email", "a@x")]], Except.ok [],
        tenvAll⟩ : WorldEnv).templateRead = Except.ok "" ∧
    mainRun ⟨SourceKind.csv, "S", "f", 5, none, false, false⟩
        ⟨Except.ok "", Except.ok "", Except.ok [[("email", "a@x")]], Except.ok [], tenvAll⟩
      = [Event.errTemplateMain] :=
  ⟨rfl, claim10_empty_template_aborts ⟨SourceKind.csv, "S", "f", 5, none, false, false⟩
    ⟨Except.ok "", Except.ok "", Except.ok [[("email", "a@x")]], Except.ok [], tenvAll⟩ rfl⟩

/-- C2 witness: 10 contacts, test mode, `maxEmails` unset — exactly 3
contacts are processed. -/
theorem claim2_witness :
    (List.replicate 10 ([("email", "a@x")] : Contact)).length = 10 ∧
    countProcessed (bulkRun tenvAll "f" (List.replicate 10 [("email", "a@x")]) "S" "H" none 0
        true none stInit).events = 3 :=
  ⟨by decide, (claim2_testmode_cap tenvAll "f" "S" "H" none 0 stInit
      (List.replicate 10 [("email", "a@x")]) none).2 (by decide)⟩

/-! ## Scanner lemmas -/

theorem safeSub_cons_ne (m : Contact) (c : Char) (hne : c ≠ '$') (l : List Char) :
    safeSub m (c :: l) = c :: safeSub m l := by
  cases l with
  | nil => simp [safeSub, hne]
  | cons d t => rw [safeSub]; simp [hne]

theorem safeSub_lit (m : Contact) (s : List Char) (hs : noDollar s = true) (r : List Char) :
    safeSub m (s ++ r) = s ++ safeSub m r := by
  induction s with
  | nil => rfl
  | cons c s' ih =>
    simp only [noDollar, List.all_cons, Bool.and_eq_true, decide_eq_true_eq] at hs
    rw [List.cons_append, safeSub_cons_ne m c hs.1, ih hs.2, List.cons_append]

theorem safeSub_escaped (m : Contact) (r : List Char) :
    safeSub m ('$' :: '$' :: r) = '$' :: safeSub m r := by
  rw [safeSub]; simp

theorem takeWhile_ident_append (l r : List Char) (hl : l.all isIdentCont = true)
    (hr : startsIdentCont r = false) :
    (l ++ r).takeWhile isIdentCont = l ∧ (l ++ r).dropWhile isIdentCont = r := by
  induction l with
  | nil =>
    cases r with
    | nil => simp
    | cons c t =>
      simp only [startsIdentCont] at hr
      simp [List.takeWhile, List.dropWhile, hr]
  | cons a l' ih =>
    simp only [List.all_cons, Bool.and_eq_true] at hl
    simp [List.takeWhile, List.dropWhile, hl.1, ih hl.2]

theorem safeSub_named (m : Contact) (id : List Char) (hid : validIdent id = true)
    (r : List Char) (hr : startsIdentCont r = false) :
    safeSub m ('$' :: (id ++ r)) = renderTok m (.named id) ++ safeSub m r := by
  rcases id with _ | ⟨a, id'⟩
  · simp [validIdent] at hid
  · simp only [validIdent, Bool.and_eq_true] at hid
    obtain ⟨ha, hall⟩ := hid
    have hne1 : a ≠ '$' := by intro h; rw [h] at ha; exact absurd ha (by decide)
    have hne2 : a ≠ '{' := by intro h; rw [h] at ha; exact absurd ha (by decide)
    have htw := takeWhile_ident_append id' r hall hr
    have hk : identLen (a :: (id' ++ r)) = id'.length + 1 := by
      simp [identLen, ha, htw.1]
    have htake : (a :: (id' ++ r)).take (id'.length + 1) = a :: id' := by
      simp [List.take_succ_cons, List.take_left]
    have hdrop : (a :: (id' ++ r)).drop (id'.length + 1) = r := by
      simp [List.drop_succ_cons, List.drop_left]
    rw [List.cons_append, safeSub]
    simp only [if_pos rfl, hne1, hne2, if_false, ite_false, ha, ite_true, hk, htake, hdrop]
    rcases hl : lookupId m (a :: id') with _ | v <;> simp [hl, renderTok]

theorem safeSub_braced (m : Contact) (id : List Char) (hid : validIdent id = true)
    (r : List Char) :
    safeSub m ('$' :: '{' :: (id ++ '}' :: r)) = renderTok m (.braced id) ++ safeSub m r := by
  rcases id with _ | ⟨a, id'⟩
  · simp [validIdent] at hid
  · simp only [validIdent, Bool.and_eq_true] at hid
    obtain ⟨ha, hall⟩ := hid
    have hne : startsIdentCont ('}' :: r) = false := rfl
    have htw := takeWhile_ident_append id' ('}' :: r) hall hne
    have hk : identLen (a :: (id' ++ '}' :: r)) = id'.length + 1 := by
      simp [identLen, ha, htw.1]
    have htake : (a :: (id' ++ '}' :: r)).take (id'.length + 1) = a :: id' := by
      simp [List.take_succ_cons]
    have hdropk : (a :: (id' ++ '}' :: r)).drop (id'.length + 1) = '}' :: r := by
      simp [List.drop_succ_cons, List.drop_left]
    have hdrop1 : (a :: (id' ++ '}' :: r)).drop (id'.length + 1 + 1) = r := by
      have hsplit : id' ++ '}' :: r = (id' ++ ['}']) ++ r := by simp
      have hlen : (id' ++ ['}']).length = id'.length + 1 := by simp
      rw [List.drop_succ_cons, hsplit, ← hlen, List.drop_left]
    rw [List.cons_append, safeSub]
    simp only [if_pos rfl, ite_true, hk, htake, hdropk, hdrop1]
    rcases hl : lookupId m (a :: id') with _ | v <;> simp [hl, renderTok]

/-- The scanner of `safe_substitute` agrees with token-level substitution on
every well-formed template. -/
theorem safeSub_renderToks (m : Contact) :
    ∀ (ts : List Tok), WFtoks ts = true → safeSub m (untok ts) = renderToks m ts := by
  intro ts
  induction ts with
  | nil => intro h; simp [untok, safeSub, renderToks]
  | cons t ts ih =>
    intro h
    cases t with
    | lit s =>
      simp only [WFtoks, Bool.and_eq_true] at h
      simp only [untok, untokOne, renderToks, renderTok]
      rw [safeSub_lit m s h.1, ih h.2]
    | escaped =>
      simp only [WFtoks] at h
      simp only [untok, untokOne, renderToks, renderTok, List.cons_append, List.nil_append]
      rw [safeSub_escaped, ih h]
    | named id =>
      simp only [WFtoks, Bool.and_eq_true, Bool.not_eq_true'] at h
      simp only [untok, untokOne, renderToks, List.cons_append]
      rw [safeSub_named m id h.1.1 _ h.2, ih h.1.2]
    | braced id =>
      simp only [WFtoks, Bool.and_eq_true] at h
      simp only [untok, untokOne, renderToks, List.cons_append, List.append_assoc,
        List.singleton_append, List.nil_append]
      rw [safeSub_braced m id h.1 _, ih h.2]

/-- C6: personalization never fails — `personalize_message` always returns
`some` (safe-substitute semantics never raise) — and on every well-formed
template, `safe_substitute` (used directly for the subject and through
`personalize_message` for the HTML and optional text bodies) replaces each
placeholder whose identifier is a contact field by its value and leaves
every placeholder with no matching field literally unchanged (the unmatched
cases of `renderTok`). -/
theorem claim6_safe_substitution :
    (∀ (t : String) (c : Contact),
      TemplateManager.personalize_message t c = some (safe_substitute t c)) ∧
    (∀ (ts : List Tok) (c : Contact), WFtoks ts = true →
      safe_substitute (String.mk (untok ts)) c = String.mk (renderToks c ts) ∧
      TemplateManager.personalize_message (String.mk (untok ts)) c
        = some (String.mk (renderToks c ts))) ∧
    (∀ (c : Contact) (id : List Char), validIdent id = true → lookupId c id = none →
      renderTok c (Tok.named id) = '$' :: id ∧
      renderTok c (Tok.braced id) = '$' :: '{' :: (id ++ ['}'])) := by
  refine ⟨fun t c => rfl, ?_, ?_⟩
  · intro ts c h
    have hmain := safeSub_renderToks c ts h
    exact ⟨congrArg String.mk hmain, congrArg (fun l => some (String.mk l)) hmain⟩
  · intro c id hv hl
    constructor <;> simp [renderTok, hl]

/-- C6 witness: on the template `"Hello $name, $unknown_field!"` the known
placeholder is substituted and the unknown one is left literally unchanged,
with no failure. -/
theorem claim6_witness :
    WFtoks tsC6 = true ∧
    TemplateManager.personalize_message "Hello $name, $unknown_field!" contactC6
      = some "Hello Alice, $unknown_field!" := by
  constructor
  · decide
  · have h := ((claim6_safe_substitution.2.1) tsC6 contactC6 (by decide)).2
    have e1 : String.mk (untok tsC6) = "Hello $name, $unknown_field!" := by decide
    have e2 : String.mk (renderToks contactC6 tsC6) = "Hello Alice, $unknown_field!" := by decide
    rw [e1, e2] at h
    exact h
